import Mathlib

/-!
# Juice version probe: `GetJuiceVersion`

A shallow embedding of `cmd/juicify/app/version_linux.h` and
`cmd/juicify/app/version_windows.h`.

Both headers define one function, `GetJuiceVersion(library, err)`, which loads a
shared library, resolves the export `GetVersion`, calls it, releases the
library and hands back the pointer the call produced together with a
diagnostic written through `err`.

The native loader (`dlopen`/`dlsym`/`dlerror`/`dlclose` on Linux,
`LoadLibraryA`/`GetProcAddress`/`GetLastError`/`FreeLibrary` on Windows) is
platform code.  It is taken as a parameter: a record of state-passing
operations over an arbitrary world type `σ`.  Every theorem about the probe is
stated for every such record, so it holds for every loader behaviour.
-/

namespace Juice

/-- A machine address.  `const char*`, `void*`, `HMODULE` and `GetVersionFn`
values are all addresses; `0` is the null pointer. -/
abbrev Ptr := Nat

/-- The null pointer. -/
def NULL : Ptr := 0

/-- What a call of `GetJuiceVersion` leaves behind: the returned pointer, the
value stored through the out-parameter `err`, and the world after the call. -/
structure Probe (δ σ : Type) where
  version : Ptr
  err : δ
  world : σ

/-- A native operation performed by the probe, with the value it produced. -/
inductive Event where
  | load (library : String) (handle : Ptr)
  | resolve (handle : Ptr) (symbol : String) (fn : Ptr)
  | invoke (fn : Ptr) (result : Ptr)
  | lastError (diag : Nat)
  | release (handle : Ptr) (status : Int)
  deriving DecidableEq, Repr

/-- The operation an event stands for, without the diagnostic value and the
release status, whose representation differs between the two platforms. -/
inductive Op where
  | load (library : String) (handle : Ptr)
  | resolve (handle : Ptr) (symbol : String) (fn : Ptr)
  | invoke (fn : Ptr) (result : Ptr)
  | lastError
  | release (handle : Ptr)
  deriving DecidableEq, Repr

/-- Forget the platform-specific payload of an event. -/
def Event.op : Event → Op
  | .load l h => .load l h
  | .resolve h n f => .resolve h n f
  | .invoke f r => .invoke f r
  | .lastError _ => .lastError
  | .release h _ => .release h

/-- The handles passed to the release operation, in order. -/
def releases : List Event → List Ptr
  | [] => []
  | .release h _ :: es => h :: releases es
  | _ :: es => releases es

/-- The results of the calls made through a resolved function pointer. -/
def invocations : List Event → List Ptr
  | [] => []
  | .invoke _ r :: es => r :: invocations es
  | _ :: es => invocations es

/-- The handles owned by the probe after a sequence of native operations,
starting from the handles `held`: a load that produced a non-null handle
acquires it, a release gives one acquisition of the handle up. -/
def heldAfter : List Event → List Ptr → List Ptr
  | [], held => held
  | .load _ h :: es, held => heldAfter es (if h = NULL then held else h :: held)
  | .release h _ :: es, held => heldAfter es (held.erase h)
  | _ :: es, held => heldAfter es held

/-- Read the NUL-terminated byte string at address `p` in the memory `m`
(`none` for an unmapped address), looking at no more than `fuel` bytes.  The
result is `none` when an unmapped byte is reached before the terminator. -/
def readCStr (m : Ptr → Option Nat) : Nat → Ptr → Option (List Nat)
  | 0, _ => none
  | fuel + 1, p =>
    match m p with
    | none => none
    | some 0 => some []
    | some b => (readCStr m fuel (p + 1)).map (fun bs => b :: bs)

/-! ## `version_linux.h` -/

namespace Linux

/-- The flag `RTLD_NOW` of `<dlfcn.h>` on Linux. -/
def RTLD_NOW : Nat := 2

/-- The operations of `<dlfcn.h>` the probe uses, over a world `σ`, and the
call through a `GetVersionFn` function pointer. -/
structure Loader (σ : Type) where
  dlopen : String → Nat → σ → Ptr × σ
  dlsym : Ptr → String → σ → Ptr × σ
  dlerror : σ → Ptr × σ
  dlclose : Ptr → σ → Int × σ
  call : Ptr → σ → Ptr × σ

/-- The function `GetJuiceVersion` of `version_linux.h`. -/
def GetJuiceVersion {σ : Type} (L : Loader σ) (library : String) (w : σ) : Probe Ptr σ :=
  let handle := L.dlopen library RTLD_NOW w
  if handle.1 ≠ NULL then
    let getVersion := L.dlsym handle.1 "GetVersion" handle.2
    if getVersion.1 ≠ NULL then
      let version := L.call getVersion.1 getVersion.2
      let closed := L.dlclose handle.1 version.2
      { version := version.1, err := NULL, world := closed.2 }
    else
      let e := L.dlerror getVersion.2
      let closed := L.dlclose handle.1 e.2
      { version := NULL, err := e.1, world := closed.2 }
  else
    let e := L.dlerror handle.2
    { version := NULL, err := e.1, world := e.2 }

/-- The same loader, recording every operation it performs. -/
def Loader.traced {σ : Type} (L : Loader σ) : Loader (σ × List Event) where
  dlopen := fun l f w =>
    let r := L.dlopen l f w.1
    (r.1, (r.2, w.2 ++ [Event.load l r.1]))
  dlsym := fun h n w =>
    let r := L.dlsym h n w.1
    (r.1, (r.2, w.2 ++ [Event.resolve h n r.1]))
  dlerror := fun w =>
    let r := L.dlerror w.1
    (r.1, (r.2, w.2 ++ [Event.lastError r.1]))
  dlclose := fun h w =>
    let r := L.dlclose h w.1
    (r.1, (r.2, w.2 ++ [Event.release h r.1]))
  call := fun f w =>
    let r := L.call f w.1
    (r.1, (r.2, w.2 ++ [Event.invoke f r.1]))

/-- The native operations one call of the probe performs, in order. -/
def trace {σ : Type} (L : Loader σ) (library : String) (w : σ) : List Event :=
  (GetJuiceVersion L.traced library (w, [])).world.2

/-- The load step of a probe: the handle and the world after `dlopen`. -/
def loaded {σ : Type} (L : Loader σ) (library : String) (w : σ) : Ptr × σ :=
  L.dlopen library RTLD_NOW w

/-- The resolve step following the load step: `dlsym` for `GetVersion`. -/
def resolved {σ : Type} (L : Loader σ) (library : String) (w : σ) : Ptr × σ :=
  L.dlsym (loaded L library w).1 "GetVersion" (loaded L library w).2

/-- The call of the resolved function following the resolve step. -/
def invoked {σ : Type} (L : Loader σ) (library : String) (w : σ) : Ptr × σ :=
  L.call (resolved L library w).1 (resolved L library w).2

end Linux

/-! ## `version_windows.h` -/

namespace Windows

/-- The conversion of a `DWORD` to `int` performed by `*err = GetLastError()`:
the 32-bit pattern read as a two's complement number. -/
def dwordToInt (d : Nat) : Int :=
  if d % 2 ^ 32 < 2 ^ 31 then ((d % 2 ^ 32 : Nat) : Int) else ((d % 2 ^ 32 : Nat) : Int) - 2 ^ 32

/-- The operations of `<Windows.h>` the probe uses, over a world `σ`, and the
call through a `GetVersionFn` function pointer. -/
structure Loader (σ : Type) where
  LoadLibraryA : String → σ → Ptr × σ
  GetProcAddress : Ptr → String → σ → Ptr × σ
  GetLastError : σ → Nat × σ
  FreeLibrary : Ptr → σ → Int × σ
  call : Ptr → σ → Ptr × σ

/-- The function `GetJuiceVersion` of `version_windows.h`. -/
def GetJuiceVersion {σ : Type} (L : Loader σ) (library : String) (w : σ) : Probe Int σ :=
  let handle := L.LoadLibraryA library w
  if handle.1 ≠ NULL then
    let getVersion := L.GetProcAddress handle.1 "GetVersion" handle.2
    if getVersion.1 ≠ NULL then
      let version := L.call getVersion.1 getVersion.2
      let freed := L.FreeLibrary handle.1 version.2
      { version := version.1, err := 0, world := freed.2 }
    else
      let e := L.GetLastError getVersion.2
      let freed := L.FreeLibrary handle.1 e.2
      { version := NULL, err := dwordToInt e.1, world := freed.2 }
  else
    let e := L.GetLastError handle.2
    { version := NULL, err := dwordToInt e.1, world := e.2 }

/-- The same loader, recording every operation it performs. -/
def Loader.traced {σ : Type} (L : Loader σ) : Loader (σ × List Event) where
  LoadLibraryA := fun l w =>
    let r := L.LoadLibraryA l w.1
    (r.1, (r.2, w.2 ++ [Event.load l r.1]))
  GetProcAddress := fun h n w =>
    let r := L.GetProcAddress h n w.1
    (r.1, (r.2, w.2 ++ [Event.resolve h n r.1]))
  GetLastError := fun w =>
    let r := L.GetLastError w.1
    (r.1, (r.2, w.2 ++ [Event.lastError r.1]))
  FreeLibrary := fun h w =>
    let r := L.FreeLibrary h w.1
    (r.1, (r.2, w.2 ++ [Event.release h r.1]))
  call := fun f w =>
    let r := L.call f w.1
    (r.1, (r.2, w.2 ++ [Event.invoke f r.1]))

/-- The native operations one call of the probe performs, in order. -/
def trace {σ : Type} (L : Loader σ) (library : String) (w : σ) : List Event :=
  (GetJuiceVersion L.traced library (w, [])).world.2

/-- The load step of a probe: the handle and the world after `LoadLibraryA`. -/
def loaded {σ : Type} (L : Loader σ) (library : String) (w : σ) : Ptr × σ :=
  L.LoadLibraryA library w

/-- The resolve step following the load step: `GetProcAddress` for
`GetVersion`. -/
def resolved {σ : Type} (L : Loader σ) (library : String) (w : σ) : Ptr × σ :=
  L.GetProcAddress (loaded L library w).1 "GetVersion" (loaded L library w).2

/-- The call of the resolved function following the resolve step. -/
def invoked {σ : Type} (L : Loader σ) (library : String) (w : σ) : Ptr × σ :=
  L.call (resolved L library w).1 (resolved L library w).2

end Windows

/-! ## A reference-counting loader

A small executable loader, used to run the probe on concrete libraries.  A
library is mapped while at least one handle to it is open; its bytes are
readable exactly then. -/

/-- A shared library on disk. -/
structure Lib where
  path : String
  base : Ptr
  entry : Ptr
  result : Ptr
  image : List (Ptr × Nat)

/-- The installed libraries and the error values the loader reports. -/
structure Config where
  libs : List Lib
  loadError : Nat
  symbolError : Nat
  closeError : Nat
  closeFails : Bool

/-- The loader state: one entry per open handle, and the pending error. -/
structure Sim where
  held : List Ptr
  pending : Nat
  deriving DecidableEq, Repr

/-- The byte at address `a`: readable when a library with an open handle owns
the address. -/
def Sim.mem (c : Config) (s : Sim) (a : Ptr) : Option Nat :=
  match c.libs.find? (fun l => s.held.contains l.base && (l.image.lookup a).isSome) with
  | some l => l.image.lookup a
  | none => none

/-- Load by path: a new reference to the library, or the load error. -/
def simOpen (c : Config) (library : String) (s : Sim) : Ptr × Sim :=
  match c.libs.find? (fun l => l.path == library) with
  | some l => (l.base, { s with held := l.base :: s.held })
  | none => (NULL, { s with pending := c.loadError })

/-- Resolve a symbol of an open library; only `GetVersion` is ever exported. -/
def simSym (c : Config) (h : Ptr) (symbol : String) (s : Sim) : Ptr × Sim :=
  match c.libs.find? (fun l => l.base == h && s.held.contains h) with
  | some l =>
    if symbol = "GetVersion" ∧ l.entry ≠ NULL then (l.entry, s)
    else (NULL, { s with pending := c.symbolError })
  | none => (NULL, { s with pending := c.symbolError })

/-- Call the function at address `f` of an open library. -/
def simCall (c : Config) (f : Ptr) (s : Sim) : Ptr × Sim :=
  match c.libs.find? (fun l => l.entry == f && s.held.contains l.base) with
  | some l => (l.result, s)
  | none => (NULL, s)

/-- Give one reference up.  The status is `true` on success. -/
def simClose (c : Config) (h : Ptr) (s : Sim) : Bool × Sim :=
  if c.closeFails ∨ h ∉ s.held then (false, { s with pending := c.closeError })
  else (true, { s with held := s.held.erase h })

/-- The reference loader behind the `<dlfcn.h>` interface: `dlerror` hands the
pending error out and clears it, `dlclose` returns `0` on success. -/
def simLinux (c : Config) : Linux.Loader Sim where
  dlopen := fun l _ s => simOpen c l s
  dlsym := simSym c
  dlerror := fun s => (s.pending, { s with pending := 0 })
  dlclose := fun h s => (if (simClose c h s).1 then 0 else -1, (simClose c h s).2)
  call := simCall c

/-- The reference loader behind the `<Windows.h>` interface: `GetLastError`
reads the pending error, `FreeLibrary` returns nonzero on success. -/
def simWindows (c : Config) : Windows.Loader Sim where
  LoadLibraryA := simOpen c
  GetProcAddress := simSym c
  GetLastError := fun s => (s.pending, s)
  FreeLibrary := fun h s => (if (simClose c h s).1 then 1 else 0, (simClose c h s).2)
  call := simCall c

/-- A library whose `GetVersion` returns the string `1.4.2`, stored in the
library itself. -/
def libfoo : Lib where
  path := "libfoo"
  base := 4096
  entry := 4112
  result := 4128
  image := [(4128, 49), (4129, 46), (4130, 52), (4131, 46), (4132, 50), (4133, 0)]

/-- A library that exports no `GetVersion`. -/
def libbare : Lib where
  path := "libbare"
  base := 8192
  entry := NULL
  result := NULL
  image := []

/-- A library whose `GetVersion` returns a null pointer. -/
def libnull : Lib where
  path := "libnull"
  base := 12288
  entry := 12304
  result := NULL
  image := []

/-- The bytes of the string `1.4.2`. -/
def v142 : List Nat := [49, 46, 52, 46, 50]

/-- Three installed libraries; load and resolve failures are reported with
different values (`126` and `127`). -/
def host : Config where
  libs := [libfoo, libbare, libnull]
  loadError := 126
  symbolError := 127
  closeError := 6
  closeFails := false

/-- The same installation on a loader whose release operation fails. -/
def stubborn : Config := { host with closeFails := true }

/-- The same installation on a loader that reports a failed load with the
value it also uses for a missing export (`127`). -/
def terse : Config := { host with loadError := 127 }

/-- A process with no library open and no pending error. -/
def idle : Sim := { held := [], pending := 0 }

/-- A process that already holds a reference to `libfoo`. -/
def busy : Sim := { held := [4096], pending := 0 }

/-! ## A loader that owns the text of its errors

A second executable loader, after the C library's `dlerror`: the text of the
pending error lives in a buffer of the loader at `errAddr`, `dlerror` hands
the address of that buffer out, and every later loader operation drops the
text before it runs. -/

/-- The loader state: the open handles, the text of the pending error, and
whether `dlerror` has handed it out already. -/
structure Dl where
  held : List Ptr
  message : Option (List Nat)
  reported : Bool
  deriving DecidableEq, Repr

/-- The address of the buffer that holds the text of the pending error. -/
def errAddr : Ptr := 256

/-- The bytes of `no file`. -/
def noSuchFile : List Nat := [110, 111, 32, 102, 105, 108, 101]

/-- The bytes of `no symbol`. -/
def noSuchSymbol : List Nat := [110, 111, 32, 115, 121, 109, 98, 111, 108]

/-- The bytes of `bad`. -/
def badHandle : List Nat := [98, 97, 100]

/-- The byte at address `a`: the pending error text and its terminator are
readable from `errAddr` on. -/
def Dl.mem (s : Dl) (a : Ptr) : Option Nat :=
  match s.message with
  | none => none
  | some text => if errAddr ≤ a then (text ++ [0])[a - errAddr]? else none

/-- Load by path; the previous error text is dropped. -/
def dlOpen (c : Config) (library : String) (s : Dl) : Ptr × Dl :=
  match c.libs.find? (fun l => l.path == library) with
  | some l => (l.base, { held := l.base :: s.held, message := none, reported := false })
  | none => (NULL, { held := s.held, message := some noSuchFile, reported := false })

/-- Resolve a symbol of an open library; the previous error text is dropped. -/
def dlSym (c : Config) (h : Ptr) (symbol : String) (s : Dl) : Ptr × Dl :=
  match c.libs.find? (fun l => l.base == h && s.held.contains h) with
  | some l =>
    if symbol = "GetVersion" ∧ l.entry ≠ NULL then
      (l.entry, { held := s.held, message := none, reported := false })
    else (NULL, { held := s.held, message := some noSuchSymbol, reported := false })
  | none => (NULL, { held := s.held, message := some noSuchSymbol, reported := false })

/-- Hand the address of the pending error text out, once; with nothing
pending, or after it was handed out, the result is null. -/
def dlError (s : Dl) : Ptr × Dl :=
  if s.message.isSome ∧ s.reported = false then (errAddr, { s with reported := true })
  else (NULL, { s with message := none })

/-- Give one reference up; the previous error text is dropped. -/
def dlClose (h : Ptr) (s : Dl) : Int × Dl :=
  if h ∈ s.held then (0, { held := s.held.erase h, message := none, reported := false })
  else (-1, { held := s.held, message := some badHandle, reported := false })

/-- Call the function at address `f` of an open library. -/
def dlCall (c : Config) (f : Ptr) (s : Dl) : Ptr × Dl :=
  match c.libs.find? (fun l => l.entry == f && s.held.contains l.base) with
  | some l => (l.result, s)
  | none => (NULL, s)

/-- The text-owning loader behind the `<dlfcn.h>` interface. -/
def textLoader (c : Config) : Linux.Loader Dl where
  dlopen := fun l _ s => dlOpen c l s
  dlsym := dlSym c
  dlerror := dlError
  dlclose := dlClose
  call := dlCall c

/-- A process with no library open and no pending error text. -/
def fresh : Dl := { held := [], message := none, reported := false }

/-! ## Shape of one call -/

namespace Linux

theorem dlfcn_traced_erase {σ : Type} (L : Loader σ) (library : String) (w : σ) (tr : List Event) :
    (GetJuiceVersion L.traced library (w, tr)).version = (GetJuiceVersion L library w).version ∧
    (GetJuiceVersion L.traced library (w, tr)).err = (GetJuiceVersion L library w).err ∧
    (GetJuiceVersion L.traced library (w, tr)).world.1 = (GetJuiceVersion L library w).world := by
  unfold GetJuiceVersion
  simp only [Loader.traced]
  split_ifs <;> simp

theorem dlfcn_trace_eq {σ : Type} (L : Loader σ) (library : String) (w : σ) :
    trace L library w =
      if (loaded L library w).1 = NULL then
        [Event.load library (loaded L library w).1,
         Event.lastError (L.dlerror (loaded L library w).2).1]
      else if (resolved L library w).1 = NULL then
        [Event.load library (loaded L library w).1,
         Event.resolve (loaded L library w).1 "GetVersion" (resolved L library w).1,
         Event.lastError (L.dlerror (resolved L library w).2).1,
         Event.release (loaded L library w).1
           (L.dlclose (loaded L library w).1 (L.dlerror (resolved L library w).2).2).1]
      else
        [Event.load library (loaded L library w).1,
         Event.resolve (loaded L library w).1 "GetVersion" (resolved L library w).1,
         Event.invoke (resolved L library w).1 (invoked L library w).1,
         Event.release (loaded L library w).1
           (L.dlclose (loaded L library w).1 (invoked L library w).2).1] := by
  unfold trace GetJuiceVersion invoked resolved loaded
  simp only [Loader.traced]
  split_ifs <;> simp_all

theorem dlfcn_result_eq {σ : Type} (L : Loader σ) (library : String) (w : σ) :
    GetJuiceVersion L library w =
      if (loaded L library w).1 = NULL then
        { version := NULL, err := (L.dlerror (loaded L library w).2).1,
          world := (L.dlerror (loaded L library w).2).2 }
      else if (resolved L library w).1 = NULL then
        { version := NULL, err := (L.dlerror (resolved L library w).2).1,
          world := (L.dlclose (loaded L library w).1 (L.dlerror (resolved L library w).2).2).2 }
      else
        { version := (invoked L library w).1, err := NULL,
          world := (L.dlclose (loaded L library w).1 (invoked L library w).2).2 } := by
  unfold GetJuiceVersion invoked resolved loaded
  split_ifs <;> simp_all

end Linux

namespace Windows

theorem win32_traced_erase {σ : Type} (L : Loader σ) (library : String) (w : σ) (tr : List Event) :
    (GetJuiceVersion L.traced library (w, tr)).version = (GetJuiceVersion L library w).version ∧
    (GetJuiceVersion L.traced library (w, tr)).err = (GetJuiceVersion L library w).err ∧
    (GetJuiceVersion L.traced library (w, tr)).world.1 = (GetJuiceVersion L library w).world := by
  unfold GetJuiceVersion
  simp only [Loader.traced]
  split_ifs <;> simp

theorem win32_trace_eq {σ : Type} (L : Loader σ) (library : String) (w : σ) :
    trace L library w =
      if (loaded L library w).1 = NULL then
        [Event.load library (loaded L library w).1,
         Event.lastError (L.GetLastError (loaded L library w).2).1]
      else if (resolved L library w).1 = NULL then
        [Event.load library (loaded L library w).1,
         Event.resolve (loaded L library w).1 "GetVersion" (resolved L library w).1,
         Event.lastError (L.GetLastError (resolved L library w).2).1,
         Event.release (loaded L library w).1
           (L.FreeLibrary (loaded L library w).1 (L.GetLastError (resolved L library w).2).2).1]
      else
        [Event.load library (loaded L library w).1,
         Event.resolve (loaded L library w).1 "GetVersion" (resolved L library w).1,
         Event.invoke (resolved L library w).1 (invoked L library w).1,
         Event.release (loaded L library w).1
           (L.FreeLibrary (loaded L library w).1 (invoked L library w).2).1] := by
  unfold trace GetJuiceVersion invoked resolved loaded
  simp only [Loader.traced]
  split_ifs <;> simp_all

theorem win32_result_eq {σ : Type} (L : Loader σ) (library : String) (w : σ) :
    GetJuiceVersion L library w =
      if (loaded L library w).1 = NULL then
        { version := NULL, err := dwordToInt (L.GetLastError (loaded L library w).2).1,
          world := (L.GetLastError (loaded L library w).2).2 }
      else if (resolved L library w).1 = NULL then
        { version := NULL, err := dwordToInt (L.GetLastError (resolved L library w).2).1,
          world :=
            (L.FreeLibrary (loaded L library w).1 (L.GetLastError (resolved L library w).2).2).2 }
      else
        { version := (invoked L library w).1, err := 0,
          world := (L.FreeLibrary (loaded L library w).1 (invoked L library w).2).2 } := by
  unfold GetJuiceVersion invoked resolved loaded
  split_ifs <;> simp_all

theorem dwordToInt_of_lt {d : Nat} (h : d < 2 ^ 31) : dwordToInt d = (d : Int) := by
  unfold dwordToInt
  have h1 : d % 2 ^ 32 = d := Nat.mod_eq_of_lt (by omega)
  rw [h1, if_pos h]

theorem dwordToInt_emod (d : Nat) : dwordToInt d % 2 ^ 32 = ((d % 2 ^ 32 : Nat) : Int) := by
  unfold dwordToInt
  split_ifs <;> omega

theorem dwordToInt_eq_iff (a b : Nat) :
    dwordToInt a = dwordToInt b ↔ a % 2 ^ 32 = b % 2 ^ 32 := by
  unfold dwordToInt
  split_ifs <;> omega

end Windows

/-! ## Resource invariant -/

theorem simOpen_host (library : String) (s : Sim) :
    simOpen host library s =
      if library = "libfoo" then (4096, { s with held := 4096 :: s.held })
      else if library = "libbare" then (8192, { s with held := 8192 :: s.held })
      else if library = "libnull" then (12288, { s with held := 12288 :: s.held })
      else (NULL, { s with pending := 126 }) := by
  unfold simOpen
  by_cases h1 : library = "libfoo"
  · subst h1; rfl
  · by_cases h2 : library = "libbare"
    · subst h2; rfl
    · by_cases h3 : library = "libnull"
      · subst h3; rfl
      · have e1 : ("libfoo" == library) = false := by simpa using fun h => h1 h.symm
        have e2 : ("libbare" == library) = false := by simpa using fun h => h2 h.symm
        have e3 : ("libnull" == library) = false := by simpa using fun h => h3 h.symm
        simp [host, libfoo, libbare, libnull, List.find?, e1, e2, e3, h1, h2, h3]

theorem host_linux_held (library : String) (s : Sim) :
    (Linux.GetJuiceVersion (simLinux host) library s).world.held = s.held := by
  rw [Linux.dlfcn_result_eq]
  unfold Linux.invoked Linux.resolved Linux.loaded
  simp only [simLinux, simOpen_host]
  by_cases h1 : library = "libfoo"
  · simp [h1, NULL, simSym, simCall, simClose, host, libfoo, libbare, libnull, List.find?]
  · by_cases h2 : library = "libbare"
    · simp [h2, NULL, simSym, simCall, simClose, host, libfoo, libbare, libnull, List.find?]
    · by_cases h3 : library = "libnull"
      · simp [h3, NULL, simSym, simCall, simClose, host, libfoo, libbare, libnull, List.find?]
      · simp [h1, h2, h3, NULL]

theorem host_windows_held (library : String) (s : Sim) :
    (Windows.GetJuiceVersion (simWindows host) library s).world.held = s.held := by
  rw [Windows.win32_result_eq]
  unfold Windows.invoked Windows.resolved Windows.loaded
  simp only [simWindows, simOpen_host]
  by_cases h1 : library = "libfoo"
  · simp [h1, NULL, simSym, simCall, simClose, host, libfoo, libbare, libnull, List.find?]
  · by_cases h2 : library = "libbare"
    · simp [h2, NULL, simSym, simCall, simClose, host, libfoo, libbare, libnull, List.find?]
    · by_cases h3 : library = "libnull"
      · simp [h3, NULL, simSym, simCall, simClose, host, libfoo, libbare, libnull, List.find?]
      · simp [h1, h2, h3, NULL]

/-- C1: on both backends, for every loader, library path and starting world,
the release operation is called exactly once, on the handle the load step
returned, when that handle is non-null, and not at all when the load failed;
when a handle was acquired the release is the last native operation of the
call; and the handles the probe owns after the call are those it owned
before it.  On the reference-counting loader, for every path and every
loader state, the handles open after the probe are those open before it. -/
theorem handle_released_exactly_once :
    (∀ (σ : Type) (L : Linux.Loader σ) (library : String) (w : σ) (held : List Ptr),
      releases (Linux.trace L library w) =
        (if (Linux.loaded L library w).1 = NULL then [] else [(Linux.loaded L library w).1]) ∧
      (Linux.trace L library w).getLast?.map Event.op =
        some (if (Linux.loaded L library w).1 = NULL then Op.lastError
              else Op.release (Linux.loaded L library w).1) ∧
      heldAfter (Linux.trace L library w) held = held) ∧
    (∀ (σ : Type) (L : Windows.Loader σ) (library : String) (w : σ) (held : List Ptr),
      releases (Windows.trace L library w) =
        (if (Windows.loaded L library w).1 = NULL then []
         else [(Windows.loaded L library w).1]) ∧
      (Windows.trace L library w).getLast?.map Event.op =
        some (if (Windows.loaded L library w).1 = NULL then Op.lastError
              else Op.release (Windows.loaded L library w).1) ∧
      heldAfter (Windows.trace L library w) held = held) ∧
    (∀ (library : String) (s : Sim),
      (Linux.GetJuiceVersion (simLinux host) library s).world.held = s.held ∧
      (Windows.GetJuiceVersion (simWindows host) library s).world.held = s.held) := by
  refine ⟨?_, ?_, fun library s => ⟨host_linux_held library s, host_windows_held library s⟩⟩
  · intro σ L library w held
    rw [Linux.dlfcn_trace_eq]
    split_ifs with h1 h2 <;> simp [releases, heldAfter, Event.op, h1]
  · intro σ L library w held
    rw [Windows.win32_trace_eq]
    split_ifs with h1 h2 <;> simp [releases, heldAfter, Event.op, h1]

theorem readCStr_congr (m n : Ptr → Option Nat) (fuel : Nat) (p : Ptr) (S : List Nat)
    (h : readCStr m fuel p = some S) (hk : ∀ i, i ≤ S.length → n (p + i) = m (p + i)) :
    readCStr n fuel p = some S := by
  induction fuel generalizing p S with
  | zero => simp [readCStr] at h
  | succ k ih =>
    have h0 : n p = m p := by simpa using hk 0 (Nat.zero_le _)
    unfold readCStr at h ⊢
    rw [h0]
    cases hm : m p with
    | none => rw [hm] at h; simp at h
    | some b =>
      rw [hm] at h
      cases b with
      | zero => simpa using h
      | succ b =>
        simp only at h ⊢
        cases hr : readCStr m k (p + 1) with
        | none => rw [hr] at h; simp at h
        | some T =>
          rw [hr] at h
          simp at h
          subst h
          have := ih (p + 1) T hr (fun i hi => by
            have := hk (i + 1) (by simpa using hi)
            rwa [Nat.add_comm i 1, ← Nat.add_assoc] at this)
          rw [this]
          simp

theorem host_linux_libfoo_world (s : Sim) :
    (Linux.GetJuiceVersion (simLinux host) "libfoo" s).world = s := by
  rw [Linux.dlfcn_result_eq]
  unfold Linux.invoked Linux.resolved Linux.loaded
  simp only [simLinux, simOpen_host]
  simp [NULL, simSym, simCall, simClose, host, libfoo, libbare, libnull, List.find?]

theorem host_windows_libfoo_world (s : Sim) :
    (Windows.GetJuiceVersion (simWindows host) "libfoo" s).world = s := by
  rw [Windows.win32_result_eq]
  unfold Windows.invoked Windows.resolved Windows.loaded
  simp only [simWindows, simOpen_host]
  simp [NULL, simSym, simCall, simClose, host, libfoo, libbare, libnull, List.find?]

/-! ## The returned pointer -/

/-- C2, as stated, fails: `libfoo` loads, `GetVersion` resolves and returns
the address of the string `1.4.2` inside the library; the probe returns that
very address, and once the probe has released the only reference to the
library the string can no longer be read through the returned value. -/
theorem returned_text_not_copied :
    ((Linux.loaded (simLinux host) "libfoo" idle).1 ≠ NULL ∧
      (Linux.resolved (simLinux host) "libfoo" idle).1 ≠ NULL ∧
      readCStr (Sim.mem host (Linux.invoked (simLinux host) "libfoo" idle).2) 64
        (Linux.invoked (simLinux host) "libfoo" idle).1 = some v142 ∧
      (Linux.GetJuiceVersion (simLinux host) "libfoo" idle).version =
        (Linux.invoked (simLinux host) "libfoo" idle).1 ∧
      readCStr (Sim.mem host (Linux.GetJuiceVersion (simLinux host) "libfoo" idle).world) 64
        (Linux.GetJuiceVersion (simLinux host) "libfoo" idle).version = none) ∧
    ((Windows.loaded (simWindows host) "libfoo" idle).1 ≠ NULL ∧
      (Windows.resolved (simWindows host) "libfoo" idle).1 ≠ NULL ∧
      readCStr (Sim.mem host (Windows.invoked (simWindows host) "libfoo" idle).2) 64
        (Windows.invoked (simWindows host) "libfoo" idle).1 = some v142 ∧
      (Windows.GetJuiceVersion (simWindows host) "libfoo" idle).version =
        (Windows.invoked (simWindows host) "libfoo" idle).1 ∧
      readCStr (Sim.mem host (Windows.GetJuiceVersion (simWindows host) "libfoo" idle).world) 64
        (Windows.GetJuiceVersion (simWindows host) "libfoo" idle).version = none) := by
  decide

/-- C2, amended: when the load succeeds and `GetVersion` resolves, the probe
returns the pointer the call produced, unchanged, and the world it leaves is
the one obtained by releasing the handle right after the call; so what can be
read through the returned value after the probe is what the released world
holds at the address `GetVersion` returned. -/
theorem returned_pointer_is_borrowed :
    (∀ (σ : Type) (L : Linux.Loader σ) (library : String) (w : σ),
      (Linux.loaded L library w).1 ≠ NULL → (Linux.resolved L library w).1 ≠ NULL →
      (Linux.GetJuiceVersion L library w).version = (Linux.invoked L library w).1 ∧
      (Linux.GetJuiceVersion L library w).world =
        (L.dlclose (Linux.loaded L library w).1 (Linux.invoked L library w).2).2 ∧
      ∀ (mem : σ → Ptr → Option Nat) (fuel : Nat),
        readCStr (mem (Linux.GetJuiceVersion L library w).world) fuel
            (Linux.GetJuiceVersion L library w).version =
          readCStr (mem (L.dlclose (Linux.loaded L library w).1 (Linux.invoked L library w).2).2)
            fuel (Linux.invoked L library w).1) ∧
    (∀ (σ : Type) (L : Windows.Loader σ) (library : String) (w : σ),
      (Windows.loaded L library w).1 ≠ NULL → (Windows.resolved L library w).1 ≠ NULL →
      (Windows.GetJuiceVersion L library w).version = (Windows.invoked L library w).1 ∧
      (Windows.GetJuiceVersion L library w).world =
        (L.FreeLibrary (Windows.loaded L library w).1 (Windows.invoked L library w).2).2 ∧
      ∀ (mem : σ → Ptr → Option Nat) (fuel : Nat),
        readCStr (mem (Windows.GetJuiceVersion L library w).world) fuel
            (Windows.GetJuiceVersion L library w).version =
          readCStr
            (mem (L.FreeLibrary (Windows.loaded L library w).1 (Windows.invoked L library w).2).2)
            fuel (Windows.invoked L library w).1) := by
  constructor
  · intro σ L library w h1 h2
    rw [Linux.dlfcn_result_eq, if_neg h1, if_neg h2]
    simp
  · intro σ L library w h1 h2
    rw [Windows.win32_result_eq, if_neg h1, if_neg h2]
    simp

/-- In a process that already holds `libfoo`, the probe of `libfoo` returns
the address `GetVersion` returned and the string is still readable there
after the probe; Linux backend. -/
theorem returned_pointer_is_borrowed_witness :
    (Linux.loaded (simLinux host) "libfoo" busy).1 ≠ NULL ∧
    (Linux.resolved (simLinux host) "libfoo" busy).1 ≠ NULL ∧
    (Linux.GetJuiceVersion (simLinux host) "libfoo" busy).version = 4128 ∧
    readCStr (Sim.mem host (Linux.GetJuiceVersion (simLinux host) "libfoo" busy).world) 64
      (Linux.GetJuiceVersion (simLinux host) "libfoo" busy).version = some v142 :=
  have h := returned_pointer_is_borrowed.1 Sim (simLinux host) "libfoo" busy
    (by decide) (by decide)
  ⟨by decide, by decide, h.1.trans (by decide), (h.2.2 (Sim.mem host) 64).trans (by decide)⟩

/-! ## Outcomes -/

/-- C3, as stated, fails: it is not the case that, whenever the load
succeeds, `GetVersion` resolves and the call returns a non-null pointer to a
string `S`, the version the probe returns reads as `S` in the world the probe
returns with the diagnostic cleared.  The probe of `libfoo`, whose
`GetVersion` returns `1.4.2`, from a process holding no other reference to it
returns an address at which nothing can be read; Windows backend. -/
theorem version_text_unreadable :
    ¬ (∀ (L : Windows.Loader Sim) (library : String) (w : Sim) (fuel : Nat) (S : List Nat),
      (Windows.loaded L library w).1 ≠ NULL → (Windows.resolved L library w).1 ≠ NULL →
      (Windows.invoked L library w).1 ≠ NULL →
      readCStr (Sim.mem host (Windows.invoked L library w).2) fuel
        (Windows.invoked L library w).1 = some S →
      readCStr (Sim.mem host (Windows.GetJuiceVersion L library w).world) fuel
          (Windows.GetJuiceVersion L library w).version = some S ∧
        (Windows.GetJuiceVersion L library w).err = 0) := by
  intro h
  have h1 := (h (simWindows host) "libfoo" idle 64 v142 (by decide) (by decide) (by decide)
    (by decide)).1
  revert h1
  decide

/-- C3, amended: when the load succeeds and `GetVersion` resolves, the probe
calls the resolved function exactly once and returns exactly the pointer that
call produced, with the diagnostic cleared: `NULL` on Linux, `0` on Windows.
If the call's result reads as the string `S` when the call returns and the
release leaves the bytes of `S` and its terminator in place, the returned
version reads as `S`, byte for byte, in the world the probe returns. -/
theorem version_is_call_result :
    (∀ (σ : Type) (L : Linux.Loader σ) (library : String) (w : σ),
      (Linux.loaded L library w).1 ≠ NULL → (Linux.resolved L library w).1 ≠ NULL →
      (Linux.GetJuiceVersion L library w).version = (Linux.invoked L library w).1 ∧
      (Linux.GetJuiceVersion L library w).err = NULL ∧
      invocations (Linux.trace L library w) = [(Linux.invoked L library w).1] ∧
      ∀ (mem : σ → Ptr → Option Nat) (fuel : Nat) (S : List Nat),
        readCStr (mem (Linux.invoked L library w).2) fuel (Linux.invoked L library w).1 =
          some S →
        (∀ i, i ≤ S.length →
          mem (L.dlclose (Linux.loaded L library w).1 (Linux.invoked L library w).2).2
              ((Linux.invoked L library w).1 + i) =
            mem (Linux.invoked L library w).2 ((Linux.invoked L library w).1 + i)) →
        readCStr (mem (Linux.GetJuiceVersion L library w).world) fuel
          (Linux.GetJuiceVersion L library w).version = some S) ∧
    (∀ (σ : Type) (L : Windows.Loader σ) (library : String) (w : σ),
      (Windows.loaded L library w).1 ≠ NULL → (Windows.resolved L library w).1 ≠ NULL →
      (Windows.GetJuiceVersion L library w).version = (Windows.invoked L library w).1 ∧
      (Windows.GetJuiceVersion L library w).err = 0 ∧
      invocations (Windows.trace L library w) = [(Windows.invoked L library w).1] ∧
      ∀ (mem : σ → Ptr → Option Nat) (fuel : Nat) (S : List Nat),
        readCStr (mem (Windows.invoked L library w).2) fuel (Windows.invoked L library w).1 =
          some S →
        (∀ i, i ≤ S.length →
          mem (L.FreeLibrary (Windows.loaded L library w).1 (Windows.invoked L library w).2).2
              ((Windows.invoked L library w).1 + i) =
            mem (Windows.invoked L library w).2 ((Windows.invoked L library w).1 + i)) →
        readCStr (mem (Windows.GetJuiceVersion L library w).world) fuel
          (Windows.GetJuiceVersion L library w).version = some S) := by
  constructor
  · intro σ L library w h1 h2
    rw [Linux.dlfcn_result_eq, Linux.dlfcn_trace_eq, if_neg h1, if_neg h2, if_neg h1, if_neg h2]
    exact ⟨rfl, rfl, by simp [invocations], fun mem fuel S h hk =>
      readCStr_congr _ _ fuel _ S h hk⟩
  · intro σ L library w h1 h2
    rw [Windows.win32_result_eq, Windows.win32_trace_eq, if_neg h1, if_neg h2, if_neg h1,
      if_neg h2]
    exact ⟨rfl, rfl, by simp [invocations], fun mem fuel S h hk =>
      readCStr_congr _ _ fuel _ S h hk⟩

/-- A library whose `GetVersion` returns `1.4.2`, probed by a process that
holds another reference to it, gives a cleared diagnostic and a version that
reads `1.4.2` after the probe; Windows backend. -/
theorem version_is_call_result_witness :
    (Windows.loaded (simWindows host) "libfoo" busy).1 ≠ NULL ∧
    (Windows.resolved (simWindows host) "libfoo" busy).1 ≠ NULL ∧
    (Windows.GetJuiceVersion (simWindows host) "libfoo" busy).err = 0 ∧
    invocations (Windows.trace (simWindows host) "libfoo" busy) = [4128] ∧
    readCStr (Sim.mem host (Windows.GetJuiceVersion (simWindows host) "libfoo" busy).world) 64
      (Windows.GetJuiceVersion (simWindows host) "libfoo" busy).version = some v142 :=
  have h := version_is_call_result.2 Sim (simWindows host) "libfoo" busy (by decide) (by decide)
  ⟨by decide, by decide, h.2.1, h.2.2.1.trans (by decide),
    h.2.2.2 (Sim.mem host) 64 v142 (by decide) (by decide)⟩

/-- C4: when the load step returns a null handle, the probe returns a null
version, the diagnostic is the value the last-error query gives in the world
the failed load left (the `dlerror()` pointer on Linux, the `GetLastError()`
code converted to `int` on Windows, which keeps every 32-bit code), and the
load and that query are the only native operations of the call. -/
theorem load_failure_reported :
    (∀ (σ : Type) (L : Linux.Loader σ) (library : String) (w : σ),
      (Linux.loaded L library w).1 = NULL →
      (Linux.GetJuiceVersion L library w).version = NULL ∧
      (Linux.GetJuiceVersion L library w).err = (L.dlerror (Linux.loaded L library w).2).1 ∧
      Linux.trace L library w =
        [Event.load library NULL, Event.lastError (L.dlerror (Linux.loaded L library w).2).1]) ∧
    (∀ (σ : Type) (L : Windows.Loader σ) (library : String) (w : σ),
      (Windows.loaded L library w).1 = NULL →
      (Windows.GetJuiceVersion L library w).version = NULL ∧
      (Windows.GetJuiceVersion L library w).err =
        Windows.dwordToInt (L.GetLastError (Windows.loaded L library w).2).1 ∧
      (Windows.GetJuiceVersion L library w).err % 2 ^ 32 =
        (((L.GetLastError (Windows.loaded L library w).2).1 % 2 ^ 32 : Nat) : Int) ∧
      Windows.trace L library w =
        [Event.load library NULL,
         Event.lastError (L.GetLastError (Windows.loaded L library w).2).1]) := by
  constructor
  · intro σ L library w h1
    rw [Linux.dlfcn_result_eq, Linux.dlfcn_trace_eq, if_pos h1, if_pos h1, h1]
    exact ⟨rfl, rfl, rfl⟩
  · intro σ L library w h1
    rw [Windows.win32_result_eq, Windows.win32_trace_eq, if_pos h1, if_pos h1, h1]
    exact ⟨rfl, rfl, Windows.dwordToInt_emod _, rfl⟩

/-- A path that does not exist: the load fails, the version is null, the
diagnostic is the load error `126` and only the load and the last-error query
ran; Linux backend. -/
theorem load_failure_reported_witness :
    (Linux.loaded (simLinux host) "/no/such/lib" idle).1 = NULL ∧
    (Linux.GetJuiceVersion (simLinux host) "/no/such/lib" idle).version = NULL ∧
    (Linux.GetJuiceVersion (simLinux host) "/no/such/lib" idle).err = 126 ∧
    Linux.trace (simLinux host) "/no/such/lib" idle =
      [Event.load "/no/such/lib" NULL, Event.lastError 126] :=
  have h := load_failure_reported.1 Sim (simLinux host) "/no/such/lib" idle (by decide)
  ⟨by decide, h.1, h.2.1.trans (by decide), h.2.2.trans (by decide)⟩

theorem Linux.dlfcn_release_irrelevant {σ : Type} (L : Linux.Loader σ) (c : Ptr → σ → Int × σ)
    (library : String) (w : σ) :
    (Linux.GetJuiceVersion { L with dlclose := c } library w).version =
      (Linux.GetJuiceVersion L library w).version ∧
    (Linux.GetJuiceVersion { L with dlclose := c } library w).err =
      (Linux.GetJuiceVersion L library w).err := by
  unfold Linux.GetJuiceVersion
  simp only
  split_ifs <;> exact ⟨rfl, rfl⟩

theorem Windows.win32_release_irrelevant {σ : Type} (L : Windows.Loader σ) (c : Ptr → σ → Int × σ)
    (library : String) (w : σ) :
    (Windows.GetJuiceVersion { L with FreeLibrary := c } library w).version =
      (Windows.GetJuiceVersion L library w).version ∧
    (Windows.GetJuiceVersion { L with FreeLibrary := c } library w).err =
      (Windows.GetJuiceVersion L library w).err := by
  unfold Windows.GetJuiceVersion
  simp only
  split_ifs <;> exact ⟨rfl, rfl⟩

/-- C5, as stated, fails on the Linux backend: on a loader that keeps the
text of its errors in a buffer of its own, the probe of a library without
`GetVersion` stores the address `dlerror` returned; the text of the failed
resolution is read there right after the query, and nothing is read there in
the world the probe returns, because the release that follows dropped it. -/
theorem diagnostic_text_dropped_by_release :
    (Linux.loaded (textLoader host) "libbare" fresh).1 ≠ NULL ∧
    (Linux.resolved (textLoader host) "libbare" fresh).1 = NULL ∧
    (Linux.GetJuiceVersion (textLoader host) "libbare" fresh).version = NULL ∧
    (Linux.GetJuiceVersion (textLoader host) "libbare" fresh).err = errAddr ∧
    readCStr
      (Dl.mem ((textLoader host).dlerror (Linux.resolved (textLoader host) "libbare" fresh).2).2)
      64 (Linux.GetJuiceVersion (textLoader host) "libbare" fresh).err = some noSuchSymbol ∧
    readCStr (Dl.mem (Linux.GetJuiceVersion (textLoader host) "libbare" fresh).world) 64
      (Linux.GetJuiceVersion (textLoader host) "libbare" fresh).err = none := by
  decide

/-- C5, amended: when the load succeeds and resolving `GetVersion` returns
null, the probe returns a null version without calling anything through a
function pointer; the native operations are, in order, the load, the
resolution of the symbol named `GetVersion`, the last-error query and the
release; the diagnostic is the value that query returned in the world the
failed resolution left, and that value is the same whatever the release
operation does.  On Windows the value is the error code.  On Linux it is the
pointer `dlerror` returned, not a copy of the text: the world the probe
returns is the one the release left, so what is read through the diagnostic
after the probe is what the release left at that address. -/
theorem missing_symbol_reported :
    (∀ (σ : Type) (L : Linux.Loader σ) (library : String) (w : σ),
      (Linux.loaded L library w).1 ≠ NULL → (Linux.resolved L library w).1 = NULL →
      (Linux.GetJuiceVersion L library w).version = NULL ∧
      (Linux.GetJuiceVersion L library w).err = (L.dlerror (Linux.resolved L library w).2).1 ∧
      invocations (Linux.trace L library w) = [] ∧
      Linux.trace L library w =
        [Event.load library (Linux.loaded L library w).1,
         Event.resolve (Linux.loaded L library w).1 "GetVersion" NULL,
         Event.lastError (L.dlerror (Linux.resolved L library w).2).1,
         Event.release (Linux.loaded L library w).1
           (L.dlclose (Linux.loaded L library w).1
             (L.dlerror (Linux.resolved L library w).2).2).1] ∧
      (∀ c : Ptr → σ → Int × σ,
        (Linux.GetJuiceVersion { L with dlclose := c } library w).err =
          (L.dlerror (Linux.resolved L library w).2).1) ∧
      (Linux.GetJuiceVersion L library w).world =
        (L.dlclose (Linux.loaded L library w).1 (L.dlerror (Linux.resolved L library w).2).2).2 ∧
      ∀ (mem : σ → Ptr → Option Nat) (fuel : Nat),
        readCStr (mem (Linux.GetJuiceVersion L library w).world) fuel
            (Linux.GetJuiceVersion L library w).err =
          readCStr
            (mem (L.dlclose (Linux.loaded L library w).1
              (L.dlerror (Linux.resolved L library w).2).2).2)
            fuel (L.dlerror (Linux.resolved L library w).2).1) ∧
    (∀ (σ : Type) (L : Windows.Loader σ) (library : String) (w : σ),
      (Windows.loaded L library w).1 ≠ NULL → (Windows.resolved L library w).1 = NULL →
      (Windows.GetJuiceVersion L library w).version = NULL ∧
      (Windows.GetJuiceVersion L library w).err =
        Windows.dwordToInt (L.GetLastError (Windows.resolved L library w).2).1 ∧
      invocations (Windows.trace L library w) = [] ∧
      Windows.trace L library w =
        [Event.load library (Windows.loaded L library w).1,
         Event.resolve (Windows.loaded L library w).1 "GetVersion" NULL,
         Event.lastError (L.GetLastError (Windows.resolved L library w).2).1,
         Event.release (Windows.loaded L library w).1
           (L.FreeLibrary (Windows.loaded L library w).1
             (L.GetLastError (Windows.resolved L library w).2).2).1] ∧
      ∀ c : Ptr → σ → Int × σ,
        (Windows.GetJuiceVersion { L with FreeLibrary := c } library w).err =
          Windows.dwordToInt (L.GetLastError (Windows.resolved L library w).2).1) := by
  constructor
  · intro σ L library w h1 h2
    have e : (Linux.GetJuiceVersion L library w).err =
        (L.dlerror (Linux.resolved L library w).2).1 := by
      rw [Linux.dlfcn_result_eq, if_neg h1, if_pos h2]
    have ew : (Linux.GetJuiceVersion L library w).world =
        (L.dlclose (Linux.loaded L library w).1
          (L.dlerror (Linux.resolved L library w).2).2).2 := by
      rw [Linux.dlfcn_result_eq, if_neg h1, if_pos h2]
    refine ⟨?_, e, ?_, ?_, fun c => ((Linux.dlfcn_release_irrelevant L c library w).2).trans e,
      ew, fun mem fuel => by rw [ew, e]⟩
    · rw [Linux.dlfcn_result_eq, if_neg h1, if_pos h2]
    · rw [Linux.dlfcn_trace_eq, if_neg h1, if_pos h2]
      simp [invocations]
    · rw [Linux.dlfcn_trace_eq, if_neg h1, if_pos h2, h2]
  · intro σ L library w h1 h2
    have e : (Windows.GetJuiceVersion L library w).err =
        Windows.dwordToInt (L.GetLastError (Windows.resolved L library w).2).1 := by
      rw [Windows.win32_result_eq, if_neg h1, if_pos h2]
    refine ⟨?_, e, ?_, ?_,
      fun c => ((Windows.win32_release_irrelevant L c library w).2).trans e⟩
    · rw [Windows.win32_result_eq, if_neg h1, if_pos h2]
    · rw [Windows.win32_trace_eq, if_neg h1, if_pos h2]
      simp [invocations]
    · rw [Windows.win32_trace_eq, if_neg h1, if_pos h2, h2]

/-- A library that exports no `GetVersion`: the version is null, the
diagnostic is the missing-symbol code `127`, nothing was invoked and the
handle was released after the last-error query; Windows backend. -/
theorem missing_symbol_reported_witness :
    (Windows.loaded (simWindows host) "libbare" idle).1 ≠ NULL ∧
    (Windows.resolved (simWindows host) "libbare" idle).1 = NULL ∧
    (Windows.GetJuiceVersion (simWindows host) "libbare" idle).version = NULL ∧
    (Windows.GetJuiceVersion (simWindows host) "libbare" idle).err = 127 ∧
    Windows.trace (simWindows host) "libbare" idle =
      [Event.load "libbare" 8192, Event.resolve 8192 "GetVersion" NULL,
       Event.lastError 127, Event.release 8192 1] :=
  have h := missing_symbol_reported.2 Sim (simWindows host) "libbare" idle
    (by decide) (by decide)
  ⟨by decide, by decide, h.1, h.2.1.trans (by decide), h.2.2.2.1.trans (by decide)⟩

/-- C6, as stated, fails: on a loader whose release operation fails, leaving
the error `6` pending, the probe of `libfoo` still returns a cleared
diagnostic and the probe of `libbare` the missing-symbol diagnostic `127`,
exactly as on the loader whose release succeeds. -/
theorem release_failure_discarded :
    (Linux.trace (simLinux stubborn) "libfoo" idle =
        [Event.load "libfoo" 4096, Event.resolve 4096 "GetVersion" 4112,
         Event.invoke 4112 4128, Event.release 4096 (-1)] ∧
      (Linux.GetJuiceVersion (simLinux stubborn) "libfoo" idle).world.pending = 6 ∧
      (Linux.GetJuiceVersion (simLinux stubborn) "libfoo" idle).err = NULL ∧
      (Linux.GetJuiceVersion (simLinux host) "libfoo" idle).err = NULL ∧
      releases (Linux.trace (simLinux stubborn) "libbare" idle) = [8192] ∧
      (Linux.GetJuiceVersion (simLinux stubborn) "libbare" idle).world.pending = 6 ∧
      (Linux.GetJuiceVersion (simLinux stubborn) "libbare" idle).err = 127 ∧
      (Linux.GetJuiceVersion (simLinux host) "libbare" idle).err = 127) ∧
    (Windows.trace (simWindows stubborn) "libfoo" idle =
        [Event.load "libfoo" 4096, Event.resolve 4096 "GetVersion" 4112,
         Event.invoke 4112 4128, Event.release 4096 0] ∧
      (Windows.GetJuiceVersion (simWindows stubborn) "libfoo" idle).world.pending = 6 ∧
      (Windows.GetJuiceVersion (simWindows stubborn) "libfoo" idle).err = 0 ∧
      (Windows.GetJuiceVersion (simWindows host) "libfoo" idle).err = 0 ∧
      releases (Windows.trace (simWindows stubborn) "libbare" idle) = [8192] ∧
      (Windows.GetJuiceVersion (simWindows stubborn) "libbare" idle).world.pending = 6 ∧
      (Windows.GetJuiceVersion (simWindows stubborn) "libbare" idle).err = 127 ∧
      (Windows.GetJuiceVersion (simWindows host) "libbare" idle).err = 127) := by
  decide

/-- C6, amended: when the load returned a non-null handle the probe calls
the release operation exactly once, on that handle, and not at all otherwise;
it ignores the outcome of the release: the version and the diagnostic it
returns are those fixed before the release and are the same for every
behaviour of the release operation, failing or not. -/
theorem release_outcome_ignored :
    (∀ (σ : Type) (L : Linux.Loader σ) (c : Ptr → σ → Int × σ) (library : String) (w : σ),
      releases (Linux.trace { L with dlclose := c } library w) =
        (if (Linux.loaded L library w).1 = NULL then [] else [(Linux.loaded L library w).1]) ∧
      (Linux.GetJuiceVersion { L with dlclose := c } library w).version =
        (Linux.GetJuiceVersion L library w).version ∧
      (Linux.GetJuiceVersion { L with dlclose := c } library w).err =
        (Linux.GetJuiceVersion L library w).err) ∧
    (∀ (σ : Type) (L : Windows.Loader σ) (c : Ptr → σ → Int × σ) (library : String) (w : σ),
      releases (Windows.trace { L with FreeLibrary := c } library w) =
        (if (Windows.loaded L library w).1 = NULL then []
         else [(Windows.loaded L library w).1]) ∧
      (Windows.GetJuiceVersion { L with FreeLibrary := c } library w).version =
        (Windows.GetJuiceVersion L library w).version ∧
      (Windows.GetJuiceVersion { L with FreeLibrary := c } library w).err =
        (Windows.GetJuiceVersion L library w).err) := by
  constructor
  · intro σ L c library w
    refine ⟨?_, Linux.dlfcn_release_irrelevant L c library w⟩
    rw [Linux.dlfcn_trace_eq]
    show _ = if (Linux.loaded { L with dlclose := c } library w).1 = NULL then []
      else [(Linux.loaded { L with dlclose := c } library w).1]
    split_ifs with h1 h2 <;> simp [releases]
  · intro σ L c library w
    refine ⟨?_, Windows.win32_release_irrelevant L c library w⟩
    rw [Windows.win32_trace_eq]
    show _ = if (Windows.loaded { L with FreeLibrary := c } library w).1 = NULL then []
      else [(Windows.loaded { L with FreeLibrary := c } library w).1]
    split_ifs with h1 h2 <;> simp [releases]

/-- C7, as stated, fails: on a loader that reports a failed load with the
value it also uses for a missing export, the probe of a library that loads
but lacks `GetVersion` returns the same diagnostic as the probe of a path that
cannot be loaded. -/
theorem failure_diagnostics_coincide :
    ((Linux.loaded (simLinux terse) "/no/such/lib" idle).1 = NULL ∧
      (Linux.loaded (simLinux terse) "libbare" idle).1 ≠ NULL ∧
      (Linux.resolved (simLinux terse) "libbare" idle).1 = NULL ∧
      (Linux.GetJuiceVersion (simLinux terse) "libbare" idle).err =
        (Linux.GetJuiceVersion (simLinux terse) "/no/such/lib" idle).err) ∧
    ((Windows.loaded (simWindows terse) "/no/such/lib" idle).1 = NULL ∧
      (Windows.loaded (simWindows terse) "libbare" idle).1 ≠ NULL ∧
      (Windows.resolved (simWindows terse) "libbare" idle).1 = NULL ∧
      (Windows.GetJuiceVersion (simWindows terse) "libbare" idle).err =
        (Windows.GetJuiceVersion (simWindows terse) "/no/such/lib" idle).err) := by
  decide

/-- C7, amended: the probe reports each failure with the value the loader
gives to the last-error query made right after the step that failed, the load
for a path that cannot be loaded and the resolution for a library that lacks
`GetVersion`, and adds nothing of its own; so the two diagnostics differ
exactly when the loader reports the two failures with different values (on
Windows, different 32-bit codes). -/
theorem failure_reported_per_step :
    (∀ (σ : Type) (L : Linux.Loader σ) (bad : String) (u : σ) (bare : String) (w : σ),
      (Linux.loaded L bad u).1 = NULL →
      (Linux.loaded L bare w).1 ≠ NULL → (Linux.resolved L bare w).1 = NULL →
      (Linux.GetJuiceVersion L bad u).err = (L.dlerror (Linux.loaded L bad u).2).1 ∧
      (Linux.trace L bad u).map Event.op = [Op.load bad NULL, Op.lastError] ∧
      (Linux.GetJuiceVersion L bare w).err = (L.dlerror (Linux.resolved L bare w).2).1 ∧
      (Linux.trace L bare w).map Event.op =
        [Op.load bare (Linux.loaded L bare w).1,
         Op.resolve (Linux.loaded L bare w).1 "GetVersion" NULL,
         Op.lastError, Op.release (Linux.loaded L bare w).1] ∧
      ((Linux.GetJuiceVersion L bare w).err ≠ (Linux.GetJuiceVersion L bad u).err ↔
        (L.dlerror (Linux.resolved L bare w).2).1 ≠ (L.dlerror (Linux.loaded L bad u).2).1)) ∧
    (∀ (σ : Type) (L : Windows.Loader σ) (bad : String) (u : σ) (bare : String) (w : σ),
      (Windows.loaded L bad u).1 = NULL →
      (Windows.loaded L bare w).1 ≠ NULL → (Windows.resolved L bare w).1 = NULL →
      (Windows.GetJuiceVersion L bad u).err =
        Windows.dwordToInt (L.GetLastError (Windows.loaded L bad u).2).1 ∧
      (Windows.trace L bad u).map Event.op = [Op.load bad NULL, Op.lastError] ∧
      (Windows.GetJuiceVersion L bare w).err =
        Windows.dwordToInt (L.GetLastError (Windows.resolved L bare w).2).1 ∧
      (Windows.trace L bare w).map Event.op =
        [Op.load bare (Windows.loaded L bare w).1,
         Op.resolve (Windows.loaded L bare w).1 "GetVersion" NULL,
         Op.lastError, Op.release (Windows.loaded L bare w).1] ∧
      ((Windows.GetJuiceVersion L bare w).err ≠ (Windows.GetJuiceVersion L bad u).err ↔
        (L.GetLastError (Windows.resolved L bare w).2).1 % 2 ^ 32 ≠
          (L.GetLastError (Windows.loaded L bad u).2).1 % 2 ^ 32)) := by
  constructor
  · intro σ L bad u bare w h0 h1 h2
    rw [Linux.dlfcn_result_eq L bad, Linux.dlfcn_result_eq L bare, Linux.dlfcn_trace_eq L bad,
      Linux.dlfcn_trace_eq L bare, if_pos h0, if_pos h0, if_neg h1, if_pos h2, if_neg h1, if_pos h2,
      h0, h2]
    simp [Event.op]
  · intro σ L bad u bare w h0 h1 h2
    rw [Windows.win32_result_eq L bad, Windows.win32_result_eq L bare, Windows.win32_trace_eq L bad,
      Windows.win32_trace_eq L bare, if_pos h0, if_pos h0, if_neg h1, if_pos h2, if_neg h1, if_pos h2,
      h0, h2]
    simp [Event.op, Windows.dwordToInt_eq_iff]

/-- On a loader that reports a failed load with `126` and a missing export
with `127`, the two failures get different diagnostics; Windows backend. -/
theorem failure_reported_per_step_witness :
    (Windows.loaded (simWindows host) "/no/such/lib" idle).1 = NULL ∧
    (Windows.loaded (simWindows host) "libbare" idle).1 ≠ NULL ∧
    (Windows.resolved (simWindows host) "libbare" idle).1 = NULL ∧
    (Windows.GetJuiceVersion (simWindows host) "/no/such/lib" idle).err = 126 ∧
    (Windows.GetJuiceVersion (simWindows host) "libbare" idle).err = 127 ∧
    (Windows.GetJuiceVersion (simWindows host) "libbare" idle).err ≠
      (Windows.GetJuiceVersion (simWindows host) "/no/such/lib" idle).err :=
  have h := failure_reported_per_step.2 Sim (simWindows host) "/no/such/lib" idle "libbare" idle
    (by decide) (by decide) (by decide)
  ⟨by decide, by decide, by decide, h.1.trans (by decide), h.2.2.1.trans (by decide),
    h.2.2.2.2.mpr (by decide)⟩

/-- C8: when the load succeeds, `GetVersion` resolves and the call returns a
null pointer, the probe returns a null version with the diagnostic cleared
(`NULL` on Linux, `0` on Windows), as it does when the call returns a string;
no last-error query is made, and the handle is released once, after the
call. -/
theorem null_result_is_not_failure :
    (∀ (σ : Type) (L : Linux.Loader σ) (library : String) (w : σ),
      (Linux.loaded L library w).1 ≠ NULL → (Linux.resolved L library w).1 ≠ NULL →
      (Linux.invoked L library w).1 = NULL →
      (Linux.GetJuiceVersion L library w).version = NULL ∧
      (Linux.GetJuiceVersion L library w).err = NULL ∧
      releases (Linux.trace L library w) = [(Linux.loaded L library w).1] ∧
      (Linux.trace L library w).map Event.op =
        [Op.load library (Linux.loaded L library w).1,
         Op.resolve (Linux.loaded L library w).1 "GetVersion" (Linux.resolved L library w).1,
         Op.invoke (Linux.resolved L library w).1 NULL,
         Op.release (Linux.loaded L library w).1]) ∧
    (∀ (σ : Type) (L : Windows.Loader σ) (library : String) (w : σ),
      (Windows.loaded L library w).1 ≠ NULL → (Windows.resolved L library w).1 ≠ NULL →
      (Windows.invoked L library w).1 = NULL →
      (Windows.GetJuiceVersion L library w).version = NULL ∧
      (Windows.GetJuiceVersion L library w).err = 0 ∧
      releases (Windows.trace L library w) = [(Windows.loaded L library w).1] ∧
      (Windows.trace L library w).map Event.op =
        [Op.load library (Windows.loaded L library w).1,
         Op.resolve (Windows.loaded L library w).1 "GetVersion" (Windows.resolved L library w).1,
         Op.invoke (Windows.resolved L library w).1 NULL,
         Op.release (Windows.loaded L library w).1]) := by
  constructor
  · intro σ L library w h1 h2 h3
    rw [Linux.dlfcn_result_eq, Linux.dlfcn_trace_eq, if_neg h1, if_neg h2, if_neg h1, if_neg h2, h3]
    simp [releases, Event.op]
  · intro σ L library w h1 h2 h3
    rw [Windows.win32_result_eq, Windows.win32_trace_eq, if_neg h1, if_neg h2, if_neg h1, if_neg h2, h3]
    simp [releases, Event.op]

/-- A library whose `GetVersion` returns null: null version, cleared
diagnostic, handle released; Linux backend. -/
theorem null_result_is_not_failure_witness :
    (Linux.loaded (simLinux host) "libnull" idle).1 ≠ NULL ∧
    (Linux.resolved (simLinux host) "libnull" idle).1 ≠ NULL ∧
    (Linux.invoked (simLinux host) "libnull" idle).1 = NULL ∧
    (Linux.GetJuiceVersion (simLinux host) "libnull" idle).version = NULL ∧
    (Linux.GetJuiceVersion (simLinux host) "libnull" idle).err = NULL ∧
    releases (Linux.trace (simLinux host) "libnull" idle) = [12288] :=
  have h := null_result_is_not_failure.1 Sim (simLinux host) "libnull" idle
    (by decide) (by decide) (by decide)
  ⟨by decide, by decide, by decide, h.1, h.2.1, h.2.2.1.trans (by decide)⟩

/-! ## Successive calls and the two backends -/

theorem heldAfter_append (a b : List Event) (held : List Ptr) :
    heldAfter (a ++ b) held = heldAfter b (heldAfter a held) := by
  induction a generalizing held with
  | nil => rfl
  | cons e es ih => cases e <;> simp [heldAfter, ih]

theorem Linux.dlfcn_heldAfter_trace {σ : Type} (L : Linux.Loader σ) (library : String) (w : σ)
    (held : List Ptr) : heldAfter (Linux.trace L library w) held = held := by
  rw [Linux.dlfcn_trace_eq]
  split_ifs with h1 h2 <;> simp [heldAfter, h1]

theorem Windows.win32_heldAfter_trace {σ : Type} (L : Windows.Loader σ) (library : String) (w : σ)
    (held : List Ptr) : heldAfter (Windows.trace L library w) held = held := by
  rw [Windows.win32_trace_eq]
  split_ifs with h1 h2 <;> simp [heldAfter, h1]

/-- C9, as stated, fails: `libfoo` loads, exports `GetVersion`, and the call
returns the address of `1.4.2` on every call; two probes in succession from a
process holding no other reference both return a cleared diagnostic and that
address, the first leaves the loader state as it found it, and after neither
probe can the string be read through the returned version. -/
theorem second_probe_text_unreadable :
    ((Linux.GetJuiceVersion (simLinux host) "libfoo" idle).world = idle ∧
      (Linux.GetJuiceVersion (simLinux host) "libfoo" idle).err = NULL ∧
      (Linux.GetJuiceVersion (simLinux host) "libfoo"
        (Linux.GetJuiceVersion (simLinux host) "libfoo" idle).world).err = NULL ∧
      (Linux.GetJuiceVersion (simLinux host) "libfoo" idle).version = 4128 ∧
      (Linux.GetJuiceVersion (simLinux host) "libfoo"
        (Linux.GetJuiceVersion (simLinux host) "libfoo" idle).world).version = 4128 ∧
      readCStr (Sim.mem host (Linux.invoked (simLinux host) "libfoo" idle).2) 64 4128 =
        some v142 ∧
      readCStr (Sim.mem host (Linux.GetJuiceVersion (simLinux host) "libfoo" idle).world) 64
        (Linux.GetJuiceVersion (simLinux host) "libfoo" idle).version = none ∧
      readCStr (Sim.mem host (Linux.GetJuiceVersion (simLinux host) "libfoo"
          (Linux.GetJuiceVersion (simLinux host) "libfoo" idle).world).world) 64
        (Linux.GetJuiceVersion (simLinux host) "libfoo"
          (Linux.GetJuiceVersion (simLinux host) "libfoo" idle).world).version = none) ∧
    ((Windows.GetJuiceVersion (simWindows host) "libfoo" idle).world = idle ∧
      (Windows.GetJuiceVersion (simWindows host) "libfoo" idle).err = 0 ∧
      (Windows.GetJuiceVersion (simWindows host) "libfoo"
        (Windows.GetJuiceVersion (simWindows host) "libfoo" idle).world).err = 0 ∧
      (Windows.GetJuiceVersion (simWindows host) "libfoo" idle).version = 4128 ∧
      (Windows.GetJuiceVersion (simWindows host) "libfoo"
        (Windows.GetJuiceVersion (simWindows host) "libfoo" idle).world).version = 4128 ∧
      readCStr (Sim.mem host (Windows.invoked (simWindows host) "libfoo" idle).2) 64 4128 =
        some v142 ∧
      readCStr (Sim.mem host (Windows.GetJuiceVersion (simWindows host) "libfoo" idle).world) 64
        (Windows.GetJuiceVersion (simWindows host) "libfoo" idle).version = none ∧
      readCStr (Sim.mem host (Windows.GetJuiceVersion (simWindows host) "libfoo"
          (Windows.GetJuiceVersion (simWindows host) "libfoo" idle).world).world) 64
        (Windows.GetJuiceVersion (simWindows host) "libfoo"
          (Windows.GetJuiceVersion (simWindows host) "libfoo" idle).world).version = none) := by
  decide

/-- C9, amended: take a library that is valid in every world satisfying
`Valid` (it loads, `GetVersion` resolves, the call returns a pointer that
reads as the string `S`) on a loader whose release, made after the call,
leaves the bytes of `S` and its terminator in place and leads to a world
satisfying `Valid` again.  Then two probes in succession from such a world
both return a cleared diagnostic and the pointer their call produced, and
both returned versions read as `S` in the world their probe returns; the
world the first probe leaves is the one the loader produced by the release,
it satisfies `Valid` again, and the handles owned after the two calls are
those owned before the first.  On the reference-counting loader a probe of
`libfoo` leaves every loader state exactly as it found it. -/
theorem probe_twice_same_version :
    (∀ (σ : Type) (L : Linux.Loader σ) (library : String) (mem : σ → Ptr → Option Nat)
        (fuel : Nat) (S : List Nat) (Valid : σ → Prop),
      (∀ w, Valid w →
        (Linux.loaded L library w).1 ≠ NULL ∧ (Linux.resolved L library w).1 ≠ NULL ∧
        readCStr (mem (Linux.invoked L library w).2) fuel (Linux.invoked L library w).1 =
          some S ∧
        (∀ i, i ≤ S.length →
          mem (L.dlclose (Linux.loaded L library w).1 (Linux.invoked L library w).2).2
              ((Linux.invoked L library w).1 + i) =
            mem (Linux.invoked L library w).2 ((Linux.invoked L library w).1 + i)) ∧
        Valid (L.dlclose (Linux.loaded L library w).1 (Linux.invoked L library w).2).2) →
      ∀ (w : σ) (held : List Ptr), Valid w →
        (Linux.GetJuiceVersion L library w).err = NULL ∧
        (Linux.GetJuiceVersion L library w).version = (Linux.invoked L library w).1 ∧
        readCStr (mem (Linux.GetJuiceVersion L library w).world) fuel
          (Linux.GetJuiceVersion L library w).version = some S ∧
        (Linux.GetJuiceVersion L library w).world =
          (L.dlclose (Linux.loaded L library w).1 (Linux.invoked L library w).2).2 ∧
        Valid (Linux.GetJuiceVersion L library w).world ∧
        (Linux.GetJuiceVersion L library (Linux.GetJuiceVersion L library w).world).err = NULL ∧
        (Linux.GetJuiceVersion L library (Linux.GetJuiceVersion L library w).world).version =
          (Linux.invoked L library (Linux.GetJuiceVersion L library w).world).1 ∧
        readCStr
          (mem (Linux.GetJuiceVersion L library (Linux.GetJuiceVersion L library w).world).world)
          fuel
          (Linux.GetJuiceVersion L library (Linux.GetJuiceVersion L library w).world).version =
            some S ∧
        heldAfter (Linux.trace L library w ++
          Linux.trace L library (Linux.GetJuiceVersion L library w).world) held = held) ∧
    (∀ (σ : Type) (L : Windows.Loader σ) (library : String) (mem : σ → Ptr → Option Nat)
        (fuel : Nat) (S : List Nat) (Valid : σ → Prop),
      (∀ w, Valid w →
        (Windows.loaded L library w).1 ≠ NULL ∧ (Windows.resolved L library w).1 ≠ NULL ∧
        readCStr (mem (Windows.invoked L library w).2) fuel (Windows.invoked L library w).1 =
          some S ∧
        (∀ i, i ≤ S.length →
          mem (L.FreeLibrary (Windows.loaded L library w).1 (Windows.invoked L library w).2).2
              ((Windows.invoked L library w).1 + i) =
            mem (Windows.invoked L library w).2 ((Windows.invoked L library w).1 + i)) ∧
        Valid (L.FreeLibrary (Windows.loaded L library w).1 (Windows.invoked L library w).2).2) →
      ∀ (w : σ) (held : List Ptr), Valid w →
        (Windows.GetJuiceVersion L library w).err = 0 ∧
        (Windows.GetJuiceVersion L library w).version = (Windows.invoked L library w).1 ∧
        readCStr (mem (Windows.GetJuiceVersion L library w).world) fuel
          (Windows.GetJuiceVersion L library w).version = some S ∧
        (Windows.GetJuiceVersion L library w).world =
          (L.FreeLibrary (Windows.loaded L library w).1 (Windows.invoked L library w).2).2 ∧
        Valid (Windows.GetJuiceVersion L library w).world ∧
        (Windows.GetJuiceVersion L library (Windows.GetJuiceVersion L library w).world).err = 0 ∧
        (Windows.GetJuiceVersion L library (Windows.GetJuiceVersion L library w).world).version =
          (Windows.invoked L library (Windows.GetJuiceVersion L library w).world).1 ∧
        readCStr
          (mem
            (Windows.GetJuiceVersion L library (Windows.GetJuiceVersion L library w).world).world)
          fuel
          (Windows.GetJuiceVersion L library (Windows.GetJuiceVersion L library w).world).version =
            some S ∧
        heldAfter (Windows.trace L library w ++
          Windows.trace L library (Windows.GetJuiceVersion L library w).world) held = held) ∧
    (∀ s : Sim,
      (Linux.GetJuiceVersion (simLinux host) "libfoo" s).world = s ∧
      (Windows.GetJuiceVersion (simWindows host) "libfoo" s).world = s) := by
  refine ⟨?_, ?_, fun s => ⟨host_linux_libfoo_world s, host_windows_libfoo_world s⟩⟩
  · intro σ L library mem fuel S Valid hv w held hw
    have once : ∀ u, Valid u →
        (Linux.GetJuiceVersion L library u).err = NULL ∧
        (Linux.GetJuiceVersion L library u).version = (Linux.invoked L library u).1 ∧
        readCStr (mem (Linux.GetJuiceVersion L library u).world) fuel
          (Linux.GetJuiceVersion L library u).version = some S ∧
        (Linux.GetJuiceVersion L library u).world =
          (L.dlclose (Linux.loaded L library u).1 (Linux.invoked L library u).2).2 ∧
        Valid (Linux.GetJuiceVersion L library u).world := by
      intro u hu
      obtain ⟨h1, h2, h3, h4, h5⟩ := hv u hu
      rw [Linux.dlfcn_result_eq, if_neg h1, if_neg h2]
      exact ⟨rfl, rfl, readCStr_congr _ _ fuel _ S h3 h4, rfl, h5⟩
    obtain ⟨a1, a2, a3, a4, a5⟩ := once w hw
    obtain ⟨b1, b2, b3, _, _⟩ := once _ a5
    refine ⟨a1, a2, a3, a4, a5, b1, b2, b3, ?_⟩
    rw [heldAfter_append, Linux.dlfcn_heldAfter_trace, Linux.dlfcn_heldAfter_trace]
  · intro σ L library mem fuel S Valid hv w held hw
    have once : ∀ u, Valid u →
        (Windows.GetJuiceVersion L library u).err = 0 ∧
        (Windows.GetJuiceVersion L library u).version = (Windows.invoked L library u).1 ∧
        readCStr (mem (Windows.GetJuiceVersion L library u).world) fuel
          (Windows.GetJuiceVersion L library u).version = some S ∧
        (Windows.GetJuiceVersion L library u).world =
          (L.FreeLibrary (Windows.loaded L library u).1 (Windows.invoked L library u).2).2 ∧
        Valid (Windows.GetJuiceVersion L library u).world := by
      intro u hu
      obtain ⟨h1, h2, h3, h4, h5⟩ := hv u hu
      rw [Windows.win32_result_eq, if_neg h1, if_neg h2]
      exact ⟨rfl, rfl, readCStr_congr _ _ fuel _ S h3 h4, rfl, h5⟩
    obtain ⟨a1, a2, a3, a4, a5⟩ := once w hw
    obtain ⟨b1, b2, b3, _, _⟩ := once _ a5
    refine ⟨a1, a2, a3, a4, a5, b1, b2, b3, ?_⟩
    rw [heldAfter_append, Windows.win32_heldAfter_trace, Windows.win32_heldAfter_trace]

/-- In a process that holds another reference to `libfoo`, two probes of
`libfoo` in succession both give a cleared diagnostic and a version that
reads `1.4.2` after the probe, and the first probe leads back to the world it
started from; Linux backend. -/
theorem probe_twice_same_version_witness :
    (Linux.GetJuiceVersion (simLinux host) "libfoo" busy).world = busy ∧
    (Linux.GetJuiceVersion (simLinux host) "libfoo" busy).err = NULL ∧
    (Linux.GetJuiceVersion (simLinux host) "libfoo"
      (Linux.GetJuiceVersion (simLinux host) "libfoo" busy).world).err = NULL ∧
    readCStr (Sim.mem host (Linux.GetJuiceVersion (simLinux host) "libfoo" busy).world) 64
      (Linux.GetJuiceVersion (simLinux host) "libfoo" busy).version = some v142 ∧
    readCStr (Sim.mem host (Linux.GetJuiceVersion (simLinux host) "libfoo"
        (Linux.GetJuiceVersion (simLinux host) "libfoo" busy).world).world) 64
      (Linux.GetJuiceVersion (simLinux host) "libfoo"
        (Linux.GetJuiceVersion (simLinux host) "libfoo" busy).world).version = some v142 :=
  have h := probe_twice_same_version.1 Sim (simLinux host) "libfoo" (Sim.mem host) 64 v142
    (fun s => s = busy) (fun w hw => by subst hw; decide) busy [] rfl
  ⟨h.2.2.2.2.1, h.1, h.2.2.2.2.2.1, h.2.2.1, h.2.2.2.2.2.2.2.1⟩

/-- C10: let a Linux loader and a Windows loader behave correspondingly: a
relation between their worlds is kept by every pair of matching operations,
and load, resolve and call return the same value in related worlds.  Then
from related worlds the two backends perform the same sequence of native
operations, return the same version and leave related worlds; on both, no
last-error query is made exactly when the symbol was resolved, and then the
diagnostic is `NULL` on Linux and `0` on Windows; on the two other paths,
and only there, the diagnostic is the value of the last-error query made
after the step that failed: the `dlerror` pointer on Linux, the
`GetLastError` code on Windows. -/
theorem backends_agree (σ τ : Type) (A : Linux.Loader σ) (B : Windows.Loader τ)
    (R : σ → τ → Prop)
    (hopen : ∀ l a b, R a b →
      (A.dlopen l Linux.RTLD_NOW a).1 = (B.LoadLibraryA l b).1 ∧
      R (A.dlopen l Linux.RTLD_NOW a).2 (B.LoadLibraryA l b).2)
    (hsym : ∀ h n a b, R a b →
      (A.dlsym h n a).1 = (B.GetProcAddress h n b).1 ∧
      R (A.dlsym h n a).2 (B.GetProcAddress h n b).2)
    (hcall : ∀ f a b, R a b → (A.call f a).1 = (B.call f b).1 ∧ R (A.call f a).2 (B.call f b).2)
    (herr : ∀ a b, R a b → R (A.dlerror a).2 (B.GetLastError b).2)
    (hclose : ∀ h a b, R a b → R (A.dlclose h a).2 (B.FreeLibrary h b).2)
    (library : String) (a : σ) (b : τ) (hab : R a b) :
    (Linux.trace A library a).map Event.op = (Windows.trace B library b).map Event.op ∧
    (Linux.GetJuiceVersion A library a).version = (Windows.GetJuiceVersion B library b).version ∧
    R (Linux.GetJuiceVersion A library a).world (Windows.GetJuiceVersion B library b).world ∧
    (Op.lastError ∉ (Linux.trace A library a).map Event.op ↔
      ((Linux.loaded A library a).1 ≠ NULL ∧ (Linux.resolved A library a).1 ≠ NULL)) ∧
    (Op.lastError ∉ (Windows.trace B library b).map Event.op ↔
      ((Windows.loaded B library b).1 ≠ NULL ∧ (Windows.resolved B library b).1 ≠ NULL)) ∧
    (((Linux.loaded A library a).1 ≠ NULL ∧ (Linux.resolved A library a).1 ≠ NULL) ↔
      ((Windows.loaded B library b).1 ≠ NULL ∧ (Windows.resolved B library b).1 ≠ NULL)) ∧
    ((Linux.loaded A library a).1 ≠ NULL ∧ (Linux.resolved A library a).1 ≠ NULL →
      (Linux.GetJuiceVersion A library a).err = NULL ∧
      (Windows.GetJuiceVersion B library b).err = 0) ∧
    (Linux.GetJuiceVersion A library a).err =
      (if (Linux.loaded A library a).1 = NULL then (A.dlerror (Linux.loaded A library a).2).1
       else if (Linux.resolved A library a).1 = NULL then
         (A.dlerror (Linux.resolved A library a).2).1
       else NULL) ∧
    (Windows.GetJuiceVersion B library b).err =
      (if (Windows.loaded B library b).1 = NULL then
         Windows.dwordToInt (B.GetLastError (Windows.loaded B library b).2).1
       else if (Windows.resolved B library b).1 = NULL then
         Windows.dwordToInt (B.GetLastError (Windows.resolved B library b).2).1
       else 0) := by
  have e1 : (Linux.loaded A library a).1 = (Windows.loaded B library b).1 :=
    (hopen library a b hab).1
  have r1 : R (Linux.loaded A library a).2 (Windows.loaded B library b).2 :=
    (hopen library a b hab).2
  have e2 : (Linux.resolved A library a).1 = (Windows.resolved B library b).1 := by
    unfold Linux.resolved Windows.resolved
    rw [e1]
    exact (hsym _ _ _ _ r1).1
  have r2 : R (Linux.resolved A library a).2 (Windows.resolved B library b).2 := by
    unfold Linux.resolved Windows.resolved
    rw [e1]
    exact (hsym _ _ _ _ r1).2
  have e3 : (Linux.invoked A library a).1 = (Windows.invoked B library b).1 := by
    unfold Linux.invoked Windows.invoked
    rw [e2]
    exact (hcall _ _ _ r2).1
  have r3 : R (Linux.invoked A library a).2 (Windows.invoked B library b).2 := by
    unfold Linux.invoked Windows.invoked
    rw [e2]
    exact (hcall _ _ _ r2).2
  rw [Linux.dlfcn_trace_eq, Windows.win32_trace_eq, Linux.dlfcn_result_eq, Windows.win32_result_eq, ← e1, ← e2, ← e3]
  by_cases h1 : (Linux.loaded A library a).1 = NULL
  · simp only [if_pos h1]
    simp [Event.op, h1]
    exact herr _ _ r1
  · by_cases h2 : (Linux.resolved A library a).1 = NULL
    · simp only [if_neg h1, if_pos h2]
      simp [Event.op, h2]
      exact hclose (Linux.loaded A library a).1 _ _ (herr _ _ r2)
    · simp only [if_neg h1, if_neg h2]
      simp [Event.op, h1, h2]
      exact hclose (Linux.loaded A library a).1 _ _ r3

theorem simOpen_held (c : Config) (l : String) (a b : Sim) (h : a.held = b.held) :
    (simOpen c l a).1 = (simOpen c l b).1 ∧ (simOpen c l a).2.held = (simOpen c l b).2.held := by
  unfold simOpen
  split <;> simp [h]

theorem simSym_held (c : Config) (p : Ptr) (n : String) (a b : Sim) (h : a.held = b.held) :
    (simSym c p n a).1 = (simSym c p n b).1 ∧ (simSym c p n a).2.held = (simSym c p n b).2.held := by
  unfold simSym
  rw [h]
  split
  · split_ifs <;> simp [h]
  · simp [h]

theorem simCall_held (c : Config) (f : Ptr) (a b : Sim) (h : a.held = b.held) :
    (simCall c f a).1 = (simCall c f b).1 ∧ (simCall c f a).2.held = (simCall c f b).2.held := by
  unfold simCall
  rw [h]
  split <;> simp [h]

theorem simClose_held (c : Config) (p : Ptr) (a b : Sim) (h : a.held = b.held) :
    (simClose c p a).2.held = (simClose c p b).2.held := by
  unfold simClose
  rw [h]
  split_ifs <;> simp [h]

/-- The reference loader behind the two interfaces, worlds related when they
hold the same handles: the probes of `libfoo` perform the same operations and
return the same address, with the diagnostic cleared on both. -/
theorem backends_agree_witness :
    (Linux.trace (simLinux host) "libfoo" idle).map Event.op =
      [Op.load "libfoo" 4096, Op.resolve 4096 "GetVersion" 4112, Op.invoke 4112 4128,
       Op.release 4096] ∧
    (Windows.trace (simWindows host) "libfoo" idle).map Event.op =
      [Op.load "libfoo" 4096, Op.resolve 4096 "GetVersion" 4112, Op.invoke 4112 4128,
       Op.release 4096] ∧
    (Windows.GetJuiceVersion (simWindows host) "libfoo" idle).version = 4128 ∧
    (Linux.GetJuiceVersion (simLinux host) "libfoo" idle).version = 4128 ∧
    (Linux.GetJuiceVersion (simLinux host) "libfoo" idle).err = NULL ∧
    (Windows.GetJuiceVersion (simWindows host) "libfoo" idle).err = 0 :=
  have h := backends_agree Sim Sim (simLinux host) (simWindows host)
    (fun a b => a.held = b.held)
    (fun l a b hab => simOpen_held host l a b hab)
    (fun p n a b hab => simSym_held host p n a b hab)
    (fun f a b hab => simCall_held host f a b hab)
    (fun _ _ hab => hab)
    (fun p a b hab => simClose_held host p a b hab)
    "libfoo" idle idle rfl
  have hw : (Windows.GetJuiceVersion (simWindows host) "libfoo" idle).version = 4128 := by
    decide
  ⟨h.1.trans (by decide), by decide, hw, h.2.1.trans hw,
    (h.2.2.2.2.2.2.1 ⟨by decide, by decide⟩).1, (h.2.2.2.2.2.2.1 ⟨by decide, by decide⟩).2⟩

end Juice
